import Mathlib

/-!
Verification of the provider-aggregation backend (net-comparison).

This file shallowly embeds the parts of `backend/app` that the checked
properties are about:

* `backend/app/utils/discount_calculator.py` (`DiscountCalculator`),
  including a faithful integer model of the CPython binary64 arithmetic it
  uses (`int(base * (pct / 100))`, `int(d / length)`,
  `floor((m / base) * 100)`),
* `backend/app/utils/connection_mapper.py` (`ConnectionTypeMapper`),
* the tenacity retry wrappers and error handling of
  `backend/app/api/{verbynDich,byteMe,webwunder,servusSpeed}.py`,
* the regex description parser and offer normalization of
  `backend/app/api/verbynDich.py`,
* the semaphore usage (and non-usage) of the adapters' `get_offers`.

Machine integers do not occur (Python ints are unbounded); Python floats are
modelled exactly as dyadic rationals `m * 2^e` with round-to-nearest-even,
which is exact for the normal binary64 range exercised here.
-/

/- ### Integer model of CPython binary64 arithmetic

CPython computes `int / int` as the correctly rounded (nearest, ties to
even) double of the exact quotient, `int * float` by converting the int to
the nearest double and multiplying with one final rounding, `int(x)` by
truncation toward zero, and `math.floor(x)` as the floor.  A finite double
is a dyadic rational; we represent it as `m * 2^e` (unnormalized), so all
model arithmetic is on `ℤ`/`ℕ` and every definition is kernel-evaluable. -/

/-- Fuel-driven floor-log2 on `ℕ`; `natLog2F fuel n` is `⌊log₂ n⌋` whenever
`n ≤ fuel` and `1 ≤ n`. -/
def natLog2F : ℕ → ℕ → ℕ
  | 0, _ => 0
  | fuel + 1, n => if n < 2 then 0 else natLog2F fuel (n / 2) + 1

/-- `⌊log₂ n⌋` for `n ≥ 1` (fuel `n` always suffices). -/
def ilog2 (n : ℕ) : ℕ := natLog2F n n

/-- Round the fraction `a / b` (with `b > 0`) to the nearest integer, ties
to even. -/
def rneFrac (a b : ℤ) : ℤ :=
  let f := Int.fdiv a b
  let r := a - f * b
  if 2 * r < b then f
  else if b < 2 * r then f + 1
  else if 2 ∣ f then f else f + 1

/-- A (finite) Python float value `m * 2^e`.  Not kept normalized; equality
of values is expressed through the integer observations `pyTrunc`/`pyFloorF`
or through `PyFloat.toRat`. -/
structure PyFloat where
  m : ℤ
  e : ℤ
  deriving DecidableEq, Repr

/-- The binade exponent `E` with `2^E ≤ A/B < 2^(E+1)`, for `A, B ≥ 1`. -/
def flE (A B : ℕ) : ℤ :=
  let la := ilog2 A
  let lb := ilog2 B
  if (B : ℤ) * 2 ^ la ≤ (A : ℤ) * 2 ^ lb then (la : ℤ) - lb else (la : ℤ) - lb - 1

/-- Round the positive fraction `A / B` (`A, B ≥ 1`) to the nearest binary64
value (53-bit significand), as a `PyFloat`. -/
def flRatPos (A B : ℕ) : PyFloat :=
  let E := flE A B
  if 52 ≤ E then
    ⟨rneFrac (A : ℤ) ((B : ℤ) * 2 ^ (E - 52).toNat), E - 52⟩
  else
    ⟨rneFrac ((A : ℤ) * 2 ^ (52 - E).toNat) (B : ℤ), E - 52⟩

/-- Correctly rounded binary64 value of `a / b`, for `b > 0` (the only case
the embedded code produces).  Models CPython `int.__truediv__` and, with
`b = 1`, int-to-float conversion. -/
def flRat (a b : ℤ) : PyFloat :=
  if a = 0 then ⟨0, 0⟩
  else if 0 < a then flRatPos a.natAbs b.natAbs
  else
    let p := flRatPos a.natAbs b.natAbs
    ⟨-p.m, p.e⟩

/-- Round the dyadic value `a * 2^e` to binary64. -/
def flOfScaled (a : ℤ) (e : ℤ) : PyFloat :=
  if 0 ≤ e then flRat (a * 2 ^ e.toNat) 1 else flRat a (2 ^ (-e).toNat)

/-- Float multiplication: exact product, then one rounding. -/
def PyFloat.mul (x y : PyFloat) : PyFloat := flOfScaled (x.m * y.m) (x.e + y.e)

/-- Python `int(x)`: truncation toward zero. -/
def pyTrunc (x : PyFloat) : ℤ :=
  if 0 ≤ x.e then x.m * 2 ^ x.e.toNat else Int.tdiv x.m (2 ^ (-x.e).toNat)

/-- Python `math.floor(x)`. -/
def pyFloorF (x : PyFloat) : ℤ :=
  if 0 ≤ x.e then x.m * 2 ^ x.e.toNat else Int.fdiv x.m (2 ^ (-x.e).toNat)

/-- The exact rational value of a model float (for specification only). -/
def PyFloat.toRat (x : PyFloat) : ℚ :=
  if 0 ≤ x.e then (x.m : ℚ) * 2 ^ x.e.toNat else (x.m : ℚ) / 2 ^ (-x.e).toNat

/- ### `app/utils/discount_calculator.py` -/

/-- `DiscountResult` (pydantic model, all four fields default `None`). -/
structure DiscountResult where
  monthly_discount : Option ℤ := none
  monthly_cost_with_discount : Option ℤ := none
  total_savings : Option ℤ := none
  discount_percentage : Option ℤ := none
  deriving DecidableEq, Repr

/-- The cap default `max_discount = max_discount or 10**10` (Python `or`:
`None` and `0` both fall back). -/
def capOf (max_discount? : Option ℤ) : ℤ :=
  match max_discount? with
  | none => 10 ^ 10
  | some v => if v = 0 then 10 ^ 10 else v

/-- Python `int(x * (p / 100))` for ints `x`, `p`: the preliminary monthly
discount of the percentage path. -/
def pyPctMonthlyTemp (base_monthly_cost voucher_percentage : ℤ) : ℤ :=
  pyTrunc ((flRat base_monthly_cost 1).mul (flRat voucher_percentage 100))

/-- Python `floor((m / base) * 100)` for ints `m`, `base`: the derived
discount percentage. -/
def pyDiscountPct (monthly_discount base_monthly_cost : ℤ) : ℤ :=
  pyFloorF ((flRat monthly_discount base_monthly_cost).mul (flRat 100 1))

/-- `DiscountCalculator._calculate_percentage_discount`.  Mirrors the source
line by line: the cap default, `monthly_discount_temp =
int(base_monthly_cost * (voucher_percentage / 100))` in binary64,
`complete_discount` and the cap in exact int arithmetic, `monthly_discount
= absolute_discount // promotion_length` (Python floor division),
`monthly_cost_with_discount = round(base - monthly_discount)` (round of an
int is that int), and `discount_percentage = floor((monthly_discount /
base_monthly_cost) * 100)` in binary64. -/
def calculate_percentage_discount (promotion_length base_monthly_cost voucher_percentage : ℤ)
    (max_discount? : Option ℤ) : DiscountResult :=
  let max_discount : ℤ := capOf max_discount?
  let monthly_discount_temp := pyPctMonthlyTemp base_monthly_cost voucher_percentage
  let complete_discount := monthly_discount_temp * promotion_length
  let absolute_discount := min complete_discount max_discount
  let monthly_discount := Int.fdiv absolute_discount promotion_length
  let monthly_cost_with_discount := base_monthly_cost - monthly_discount
  let discount_percentage := pyDiscountPct monthly_discount base_monthly_cost
  { monthly_discount := some monthly_discount
    monthly_cost_with_discount := some monthly_cost_with_discount
    total_savings := some absolute_discount
    discount_percentage := some discount_percentage }

/-- `DiscountCalculator._calculate_absolute_discount`:
`monthly_discount = int(discount_in_cent / promotion_length)` in binary64,
the rest exact. -/
def calculate_absolute_discount (promotion_length base_monthly_cost discount_in_cent : ℤ) :
    DiscountResult :=
  let monthly_discount := pyTrunc (flRat discount_in_cent promotion_length)
  let monthly_cost_with_discount := base_monthly_cost - monthly_discount
  let discount_percentage := pyDiscountPct monthly_discount base_monthly_cost
  { monthly_discount := some monthly_discount
    monthly_cost_with_discount := some monthly_cost_with_discount
    total_savings := some discount_in_cent
    discount_percentage := some discount_percentage }

/-- Python truthiness of an `int | None` argument. -/
def truthyInt : Option ℤ → Bool
  | none => false
  | some n => n != 0

/-- `DiscountCalculator.calculate_discount`: route on the truthiness of
`voucher_percentage`, then of `discount_in_cent`, else the all-`None`
`DiscountResult()`. -/
def calculate_discount (promotion_length base_monthly_cost : ℤ)
    (voucher_percentage max_discount_in_cent discount_in_cent : Option ℤ) : DiscountResult :=
  if truthyInt voucher_percentage then
    calculate_percentage_discount promotion_length base_monthly_cost
      (voucher_percentage.getD 0) max_discount_in_cent
  else if truthyInt discount_in_cent then
    calculate_absolute_discount promotion_length base_monthly_cost (discount_in_cent.getD 0)
  else {}

/- ### `app/utils/connection_mapper.py` -/

/-- `ConnectionTypeMapper.SCHEMA_MAPPING.get(x, x)` unfolded over the four
dict keys. -/
def map_connection_type (api_connection_type : String) : String :=
  if api_connection_type = "DSL" then "DSL"
  else if api_connection_type = "CABLE" then "Cable"
  else if api_connection_type = "FIBER" then "Fiber"
  else if api_connection_type = "MOBILE" then "Mobile"
  else api_connection_type

/- ### Regex search model for `VerbynDich._parse_description`

Every pattern in `_parse_description` is a sequence of literals and `\d+`
groups in which each `\d+` is followed by a non-digit, so greedy matching
without backtracking coincides with Python `re.search` (leftmost match,
alternatives tried left to right). -/

/-- One element of a linearized pattern: a literal or a `(\d+)` group. -/
inductive Piece where
  | lit (s : String)
  | num
  deriving Repr

/-- Consume the literal `pat` from the front of `cs`. -/
def matchLit : List Char → List Char → Option (List Char)
  | [], cs => some cs
  | _ :: _, [] => none
  | p :: ps, c :: cs => if c = p then matchLit ps cs else none

/-- Decimal value of a digit run (Python `int` of the matched group). -/
def digitsToNat (ds : List Char) : ℕ :=
  ds.foldl (fun a c => 10 * a + (c.toNat - '0'.toNat)) 0

/-- Match a piece sequence at the current position, returning the captured
numbers.  Trailing input is allowed (as for `re.search`). -/
def matchPieces : List Piece → List Char → Option (List ℕ)
  | [], _ => some []
  | .lit s :: ps, cs =>
    match matchLit s.data cs with
    | some rest => matchPieces ps rest
    | none => none
  | .num :: ps, cs =>
    let ds := cs.takeWhile Char.isDigit
    let rest := cs.dropWhile Char.isDigit
    if ds.isEmpty then none
    else
      match matchPieces ps rest with
      | some ns => some (digitsToNat ds :: ns)
      | none => none

/-- Leftmost match of a piece sequence (`re.search`). -/
def searchPieces (ps : List Piece) : List Char → Option (List ℕ)
  | [] => matchPieces ps []
  | c :: cs =>
    match matchPieces ps (c :: cs) with
    | some ns => some ns
    | none => searchPieces ps cs

/-- First captured group of the leftmost match. -/
def search1 (ps : List Piece) (cs : List Char) : Option ℕ :=
  (searchPieces ps cs).bind List.head?

/-- `(DSL|Cable|Fiber|Mobile)-Verbindung` at the current position;
alternatives in source order. -/
def matchConnOf : List String → List Char → Option String
  | [], _ => none
  | alt :: alts, cs =>
    match matchLit alt.data cs with
    | some rest => if (matchLit "-Verbindung".data rest).isSome then some alt
                   else matchConnOf alts cs
    | none => matchConnOf alts cs

/-- Leftmost match of `(DSL|Cable|Fiber|Mobile)-Verbindung`. -/
def searchConn : List Char → Option String
  | [] => none
  | c :: cs =>
    match matchConnOf ["DSL", "Cable", "Fiber", "Mobile"] (c :: cs) with
    | some s => some s
    | none => searchConn cs

/-- Python `str.strip()` (whitespace at both ends). -/
def stripChars (cs : List Char) : List Char :=
  ((cs.dropWhile Char.isWhitespace).reverse.dropWhile Char.isWhitespace).reverse

/-- `Fernsehsender enthalten ([^.]+)` at the current position (greedy,
at least one character, stops before a period). -/
def matchTvAt (cs : List Char) : Option String :=
  match matchLit "Fernsehsender enthalten ".data cs with
  | none => none
  | some rest =>
    let tok := rest.takeWhile (fun c => c ≠ '.')
    if tok.isEmpty then none else some (String.mk (stripChars tok))

/-- Leftmost match of the TV-bundle pattern. -/
def searchTv : List Char → Option String
  | [] => none
  | c :: cs =>
    match matchTvAt (c :: cs) with
    | some s => some s
    | none => searchTv cs

/-- Python `str.upper()`, per character (kernel-evaluable, unlike
`String.toUpper`; agrees on the ASCII inputs occurring here). -/
def upperStr (s : String) : String := String.mk (s.data.map Char.toUpper)

/-- Python `str.lower()`, per character. -/
def lowerStr (s : String) : String := String.mk (s.data.map Char.toLower)

/- ### Canonical types (`app/schemas.py`) -/

/-- `ConnectionTypeEnum`. -/
inductive ConnectionTypeEnum where
  | DSL
  | Cable
  | Fiber
  | Mobile
  deriving DecidableEq, Repr

/-- The pydantic validator `ConnectionTypeEnum(v)`: `none` models the
`ValueError` raised on a value outside the enumeration. -/
def connectionTypeOfString : String → Option ConnectionTypeEnum
  | "DSL" => some .DSL
  | "Cable" => some .Cable
  | "Fiber" => some .Fiber
  | "Mobile" => some .Mobile
  | _ => none

/-- `PriceDetails` (all optional fields default `None`). -/
structure PriceDetails where
  monthly_cost : ℤ
  monthly_cost_with_discount : Option ℤ := none
  monthly_savings : Option ℤ := none
  monthly_cost_after_promotion : Option ℤ := none
  total_savings : Option ℤ := none
  setup_fee : Option ℤ := none
  discount_percentage : Option ℤ := none
  deriving DecidableEq, Repr

/-- `NormalizedOffer`.  The `fetched_at` wall-clock timestamp is outside the
model (no checked property concerns it). -/
structure NormalizedOffer where
  provider : String
  offer_id : String
  name : String
  speed : ℤ
  connection_type : ConnectionTypeEnum
  price_details : PriceDetails
  contract_duration : ℤ
  installation_service : Option Bool
  max_age : Option ℤ := none
  tv_service : Option String := none
  promotion_length : Option ℤ := none
  data_limit : Option ℤ := none
  deriving DecidableEq, Repr

/-- Modelled from the spec: the pydantic class `VerbynDichProduct` is
imported from `app.schemas` by `verbynDich.py` but absent from the source
tree.  Fields follow spec §3/§4.1 (the paginated-regex variant's labelled
extractions) and the constructor/attribute usage in `_parse_description`
and `_get_price_details`: the four mandatory extractions plus the
always-defaulted post-promotion price are required, everything else is
optional with default `None`. -/
structure VerbynDichProduct where
  monthly_cost_in_cent : ℤ
  connection_type : String
  speed : ℤ
  contract_duration : ℤ
  price_after_promotion : ℤ
  tv : Option String := none
  data_limit : Option ℤ := none
  age_restriction : Option ℤ := none
  discount_percentage : Option ℤ := none
  max_discount : Option ℤ := none
  absolute_discount_in_cent : Option ℤ := none
  min_order_value_in_cent : Option ℤ := none
  deriving DecidableEq, Repr

/-- One raw page object of the VerbynDich API (`product`, `description`,
`last`, `valid`), as consumed by `normalize_offer`. -/
structure VDRawOffer where
  product : String
  description : String
  last : Bool
  valid : Bool
  deriving DecidableEq, Repr

/- ### `VerbynDich._parse_description` and normalization -/

/-- `VerbynDich._parse_description`: `none` models the `ValueError` raised
when a mandatory field (cost, connection type, speed, duration) is missing;
otherwise each labelled pattern is extracted by leftmost regex search and
euro amounts are converted to cents. -/
def parse_description (description : String) : Option VerbynDichProduct := do
  let cs := description.data
  let cost ← search1 [.lit "Für nur ", .num, .lit "€ im Monat"] cs
  let monthly_cost_in_cent : ℤ := (cost : ℤ) * 100
  let conn ← searchConn cs
  let speed ← search1 [.lit "Geschwindigkeit von ", .num, .lit " Mbit/s"] cs
  let contract ← search1 [.lit "Mindestvertragslaufzeit ", .num, .lit " Monate"] cs
  let price_after_promotion : ℤ :=
    match searchPieces
        [.lit "Ab dem ", .num, .lit ". Monat beträgt der monatliche Preis ", .num, .lit "€"]
        cs with
    | some gs => (gs.getD 1 0 : ℤ) * 100
    | none => monthly_cost_in_cent
  pure
    { monthly_cost_in_cent := monthly_cost_in_cent
      connection_type := upperStr conn
      speed := (speed : ℤ)
      contract_duration := (contract : ℤ)
      price_after_promotion := price_after_promotion
      tv := searchTv cs
      data_limit := (search1 [.lit "Ab ", .num,
        .lit "GB pro Monat wird die Geschwindigkeit gedrosselt"] cs).map Int.ofNat
      age_restriction := (search1 [.lit "nur für Personen unter ", .num,
        .lit " Jahren"] cs).map Int.ofNat
      discount_percentage := (search1 [.lit "Rabatt von ", .num,
        .lit "% auf Ihre monatliche Rechnung bis zum ", .num, .lit ". Monat"] cs).map Int.ofNat
      max_discount := (search1 [.lit "Der maximale Rabatt beträgt ", .num,
        .lit "€"] cs).map fun n => (n : ℤ) * 100
      absolute_discount_in_cent := (search1 [.lit "einmaligen Rabatt von ", .num,
        .lit "€ auf Ihre monatliche Rechnung"] cs).map fun n => (n : ℤ) * 100
      min_order_value_in_cent := (search1 [.lit "Der Mindestbestellwert beträgt ", .num,
        .lit "€"] cs).map fun n => (n : ℤ) * 100 }

/-- `VerbynDich._get_price_details` (`PROMOTION_LENGTH = 24`). -/
def vd_get_price_details (raw_offer : VerbynDichProduct) : PriceDetails :=
  let discount_result := calculate_discount 24 raw_offer.monthly_cost_in_cent
    raw_offer.discount_percentage raw_offer.max_discount raw_offer.absolute_discount_in_cent
  { monthly_cost := raw_offer.monthly_cost_in_cent
    monthly_cost_with_discount := discount_result.monthly_cost_with_discount
    monthly_savings := discount_result.monthly_discount
    monthly_cost_after_promotion := some raw_offer.price_after_promotion
    total_savings := discount_result.total_savings
    discount_percentage := discount_result.discount_percentage }

/-- `VerbynDich._generate_offer_id`: slugify (lowercase, ASCII
alphanumerics only) with the provider prefix. -/
def vd_generate_offer_id (product_name : String) : String :=
  "verbyndich_" ++ String.mk ((lowerStr product_name).data.filter Char.isAlphanum)

/-- `VerbynDich.normalize_offer`: `none` models both the early `return
None` (invalid/missing data) and the catch-all `except` that logs and
returns `None`. -/
def vd_normalize_offer (raw_offer : VDRawOffer) : Option NormalizedOffer :=
  if !raw_offer.valid then none
  else if raw_offer.product = "" || raw_offer.description = "" then none
  else
    match parse_description raw_offer.description with
    | none => none
    | some parsed =>
      match connectionTypeOfString (map_connection_type parsed.connection_type) with
      | none => none
      | some ct =>
        some
          { provider := "VerbynDich"
            offer_id := vd_generate_offer_id raw_offer.product
            name := raw_offer.product
            speed := parsed.speed
            connection_type := ct
            price_details := vd_get_price_details parsed
            contract_duration := parsed.contract_duration
            installation_service := some false
            promotion_length := some 24
            tv_service := parsed.tv
            data_limit := parsed.data_limit }

/- ### `ByteMe._get_price_details` -/

/-- `ByteMeProduct` after its pydantic validators (numeric strings parsed
to int, `installationService` to bool). -/
structure ByteMeProduct where
  product_id : String
  provider_name : String
  speed : ℤ
  monthly_cost_in_cent : ℤ
  after_two_years_monthly_cost : ℤ
  duration_in_months : ℤ
  connection_type : String
  installation_service : Bool
  tv : String
  limit_from : ℤ
  max_age : ℤ
  voucher_type : String
  voucher_value : ℤ
  deriving DecidableEq, Repr

/-- `ByteMe._get_price_details`: discount only for voucher type
`"percentage"` or `"absolute"`, otherwise the empty `DiscountResult()`. -/
def byteme_get_price_details (raw_offer : ByteMeProduct) : PriceDetails :=
  let discount_result :=
    if raw_offer.voucher_type = "percentage" then
      calculate_discount 24 raw_offer.monthly_cost_in_cent (some raw_offer.voucher_value)
        none none
    else if raw_offer.voucher_type = "absolute" then
      calculate_discount 24 raw_offer.monthly_cost_in_cent none none
        (some raw_offer.voucher_value)
    else {}
  { monthly_cost := raw_offer.monthly_cost_in_cent
    monthly_cost_with_discount := discount_result.monthly_cost_with_discount
    monthly_savings := discount_result.monthly_discount
    monthly_cost_after_promotion := some raw_offer.after_two_years_monthly_cost
    total_savings := discount_result.total_savings
    discount_percentage := discount_result.discount_percentage }

/- ### Tenacity retry wrappers

All four adapters wrap one upstream sub-call in
`@retry(stop=stop_after_attempt(N), wait=wait_exponential(...),
retry=retry_if_exception_type(aiohttp.ClientResponseError))`.  One HTTP
attempt is abstracted by its observable outcome; an attempt with status 200
is `ok`, `status c` stands for a response with a non-200 status `c`. -/

/-- Outcome of one upstream HTTP attempt, as observed by the adapter body. -/
inductive Upstream (α : Type) where
  | ok (body : α)
  | status (code : ℕ)
  | transport
  | exn
  deriving DecidableEq

/-- Result of one execution of a decorated body: a normal return, or an
escaping `aiohttp.ClientResponseError` (the only exception type the
decorators retry). -/
inductive BodyResult (β : Type) where
  | ret (b : β)
  | raiseRetryable
  deriving DecidableEq

/-- `tenacity.RetryError`, raised when the stop condition is reached. -/
inductive RetryError where
  | mk
  deriving DecidableEq, Repr

/-- Attempt loop of tenacity: run attempts `k, k+1, …` while at most
`remaining` attempts are left; on exhaustion raise `RetryError`.  Returns
the outcome together with the number of the last attempt executed. -/
def tenacityGo {β : Type} (body : ℕ → BodyResult β) : ℕ → ℕ → Except RetryError β × ℕ
  | 0, k => (Except.error .mk, k)
  | 1, k =>
    match body k with
    | .ret b => (Except.ok b, k)
    | .raiseRetryable => (Except.error .mk, k)
  | n + 2, k =>
    match body k with
    | .ret b => (Except.ok b, k)
    | .raiseRetryable => tenacityGo body (n + 1) (k + 1)

/-- `stop_after_attempt(maxAttempts)` retry loop; attempts are numbered
from 1, the second component is the number of attempts actually made. -/
def tenacityRun {β : Type} (maxAttempts : ℕ) (body : ℕ → BodyResult β) :
    Except RetryError β × ℕ :=
  tenacityGo body maxAttempts 1

/-- `tenacity.wait_exponential(multiplier, min, max)`: the wait (seconds)
after attempt number `n` is `multiplier * 2^n` clamped into
`[min, max]`. -/
def wait_exponential (multiplier minW maxW : ℚ) (attempt_number : ℕ) : ℚ :=
  max minW (min (multiplier * 2 ^ attempt_number) maxW)

/- ### `VerbynDich.get_offers` / `_get_offer` (verbynDich.py) -/

/-- Body of `VerbynDich._get_offer`: 429 → `raise_for_status()` →
`ClientResponseError` re-raised for tenacity; any other non-200 → `return
{}`; `aiohttp.ClientError` and all other exceptions → logged, `return {}`;
200 → `normalize_offer` (whose own failures yield `None`). -/
def vdBody : Upstream VDRawOffer → BodyResult (Option NormalizedOffer)
  | .ok raw => .ret (vd_normalize_offer raw)
  | .status c => if c = 429 then .raiseRetryable else .ret none
  | .transport => .ret none
  | .exn => .ret none

/-- `VerbynDich.get_offers`: 17 pages (`MAX_PAGE`), each fetched through
the 3-attempt retry wrapper; `asyncio.gather(..., return_exceptions=True)`
turns a raised `RetryError` into a logged, skipped entry, and falsy results
(`{}`/`None`) are filtered out.  `behavior page k` is the upstream outcome
of attempt `k` for `page`. -/
def verbynDich_get_offers (behavior : ℕ → ℕ → Upstream VDRawOffer) : List NormalizedOffer :=
  ((List.range 17).map fun page =>
    (tenacityRun 3 fun k => vdBody (behavior page k)).1).filterMap fun r =>
      match r with
      | .ok (some offer) => some offer
      | _ => none

/- ### `ByteMe.get_offers` / `_fetch_products` (byteMe.py)

CSV parsing (`_parse_csv_to_products`) and row normalization are passed in
as parameters: the claims checked here are about the error paths, which do
not reach them, and the CSV de-duplication order is a Python `set`-iteration
artefact with no deterministic embedding. -/

/-- Body of `ByteMe._fetch_products`: any non-200 status →
`raise_for_status()` → `ClientResponseError` re-raised for tenacity; a
`ValueError` from CSV parsing (`parse = none`) is caught by the catch-all
handler and yields `[]`, as do transport errors and other exceptions. -/
def bmBody (parse : String → Option (List ByteMeProduct)) :
    Upstream String → BodyResult (List ByteMeProduct)
  | .ok csv => match parse csv with
    | some products => .ret products
    | none => .ret []
  | .status _ => .raiseRetryable
  | .transport => .ret []
  | .exn => .ret []

/-- `ByteMe.get_offers`: one CSV fetch through the 10-attempt retry
wrapper, awaited directly — a raised `RetryError` propagates to the caller;
on success all products are normalized. -/
def byteMe_get_offers (parse : String → Option (List ByteMeProduct))
    (normalize : ByteMeProduct → NormalizedOffer) (behavior : ℕ → Upstream String) :
    Except RetryError (List NormalizedOffer) :=
  match (tenacityRun 10 fun k => bmBody parse (behavior k)).1 with
  | .error e => .error e
  | .ok products => .ok (products.map normalize)

/- ### `WebWunder.get_offers` / `_fetch_products` (webwunder.py) -/

/-- `WebWunderFetchReturn` (schemas.py). -/
structure WebWunderFetchReturn where
  installation_service : Bool
  connection_type : String
  response_text : String
  deriving DecidableEq, Repr

/-- Body of `WebWunder._fetch_products`: any non-200 status →
`raise_for_status()` → `ClientResponseError` re-raised for tenacity;
transport errors and other exceptions → a `WebWunderFetchReturn` with empty
`response_text`. -/
def wwBody (inst : Bool) (conn : String) : Upstream String → BodyResult WebWunderFetchReturn
  | .ok text => .ret ⟨inst, conn, text⟩
  | .status _ => .raiseRetryable
  | .transport => .ret ⟨inst, conn, ""⟩
  | .exn => .ret ⟨inst, conn, ""⟩

/-- The Cartesian sweep of `WebWunder.get_offers`: `[True, False] ×
CONNECTION_TYPES`, in source iteration order. -/
def wwCombos : List (Bool × String) :=
  [(true, "DSL"), (true, "CABLE"), (true, "FIBER"), (true, "MOBILE"),
   (false, "DSL"), (false, "CABLE"), (false, "FIBER"), (false, "MOBILE")]

/-- `asyncio.gather(*tasks, return_exceptions=False)`: if any task raises,
the exception propagates (the temporally first; our stubs fail uniformly,
so list order is an adequate abstraction); otherwise all results in task
order. -/
def gatherNoExc {ε α : Type} : List (Except ε α) → Except ε (List α)
  | [] => .ok []
  | .error e :: _ => .error e
  | .ok a :: rest =>
    match gatherNoExc rest with
    | .ok tail => .ok (a :: tail)
    | .error e => .error e

/-- `WebWunder.get_offers` (webwunder.py): 8 Cartesian requests, each
through the 10-attempt retry wrapper, gathered with
`return_exceptions=False`; empty responses and responses with no products
are skipped, the rest normalized.  XML parsing and normalization are
parameters (`P` is the raw-product type); the claims checked here concern
only the error paths, which do not reach them. -/
def webwunder_get_offers {P : Type} (parseXml : String → List P)
    (normalize : P → Bool → NormalizedOffer)
    (behavior : Bool → String → ℕ → Upstream String) :
    Except RetryError (List NormalizedOffer) :=
  match gatherNoExc (wwCombos.map fun c =>
      (tenacityRun 10 fun k => wwBody c.1 c.2 (behavior c.1 c.2 k)).1) with
  | .error e => .error e
  | .ok results =>
    .ok ((results.map fun r =>
      if r.response_text = "" then []
      else (parseXml r.response_text).map fun p => normalize p r.installation_service).flatten)

/- ### `ServusSpeed.get_offers` (servusSpeed.py) -/

/-- Body of `ServusSpeed._get_available_products`: `raise_for_status()`
runs before the (dead) non-200 branch, so every non-200 status raises
`ClientResponseError` for tenacity; transport errors and everything else
are caught by the catch-all and yield the empty product list. -/
def ssAvailBody : Upstream (List String) → BodyResult (List String)
  | .ok ids => .ret ids
  | .status _ => .raiseRetryable
  | .transport => .ret []
  | .exn => .ret []

/-- Body of `ServusSpeed._get_offer`: 429 → `raise_for_status()` →
`ClientResponseError` re-raised for tenacity; any other non-200 → `return
{}` without retry; a `ValueError` from `_map_json_to_product`
(`parse = none`), transport errors and other exceptions → `{}`. -/
def ssDetailBody {J P : Type} (parse : J → Option P) : Upstream J → BodyResult (Option P)
  | .ok j => .ret (parse j)
  | .status c => if c = 429 then .raiseRetryable else .ret none
  | .transport => .ret none
  | .exn => .ret none

/-- `ServusSpeed.get_offers`: phase 1 through the 10-attempt wrapper
(awaited directly, so its `RetryError` propagates); empty id list →
`return []`; phase 2 fetches each product id through the 3-attempt
wrapper under `asyncio.gather(..., return_exceptions=True)`, skipping
exceptions and falsy (`{}`) results and normalizing the rest. -/
def servusSpeed_get_offers {J P : Type} (parse : J → Option P)
    (normalize : P → NormalizedOffer) (availBehavior : ℕ → Upstream (List String))
    (detailBehavior : String → ℕ → Upstream J) : Except RetryError (List NormalizedOffer) :=
  match (tenacityRun 10 fun k => ssAvailBody (availBehavior k)).1 with
  | .error e => .error e
  | .ok product_ids =>
    if product_ids.isEmpty then .ok []
    else
      .ok ((product_ids.map fun pid =>
        (tenacityRun 3 fun k => ssDetailBody parse (detailBehavior pid k)).1).filterMap
          fun r =>
            match r with
            | .ok (some product) => some (normalize product)
            | _ => none)

/- ### Semaphore concurrency model

Each adapter's `get_offers` creates its sub-request tasks on one
cooperative run loop; a task's upstream request (retries included) is
in flight between its start and finish.  `SemStep guarded` is the
interleaving semantics: `guarded = true` models a task body of the shape
`async with semaphore: ...` (start needs a free permit, finish returns
it); `guarded = false` models a task that never touches the semaphore.
In `verbynDich.py` (`_get_offer_with_rate_limit`) and `servusSpeed.py`
(`_get_product_with_rate_limit`) every task acquires the semaphore;
in `webwunder.py` `get_offers` the tasks created at line 86 call
`_fetch_products` directly — `_fetch_offer_with_rate_limit` is never
called and the `Semaphore(5)` from line 75 is never acquired. -/

/-- Counts of tasks not yet started / with their request in flight /
finished, plus free semaphore permits. -/
structure SemState where
  pending : ℕ
  inflight : ℕ
  done : ℕ
  avail : ℕ
  deriving DecidableEq, Repr

/-- One scheduler step: start a pending task (acquiring a permit when the
task is semaphore-guarded) or finish an in-flight task. -/
inductive SemStep (guarded : Bool) : SemState → SemState → Prop
  | start (p i d a : ℕ) (h : guarded = true → 0 < a) :
      SemStep guarded ⟨p + 1, i, d, a⟩ ⟨p, i + 1, d, if guarded then a - 1 else a⟩
  | finish (p i d a : ℕ) :
      SemStep guarded ⟨p, i + 1, d, a⟩ ⟨p, i, d + 1, if guarded then a + 1 else a⟩

/-- Initial state of `WebWunder.get_offers` (webwunder.py): 8 Cartesian
tasks, none started, the unused `Semaphore(5)` full. -/
def wwInitState : SemState := ⟨8, 0, 0, 5⟩

/- ### Concrete scenario inputs -/

/-- `Address` (schemas.py). -/
structure Address where
  street : String
  house_number : String
  zip : ℤ
  city : String
  country_code : String
  deriving DecidableEq, Repr

/-- The pydantic constraints on `Address.zip` (`ge=10000, le=99999`; the
extra `len(str(zip)) == 5` validator coincides on this range). -/
def address_zip_valid (zip : ℤ) : Bool := 10000 ≤ zip && zip ≤ 99999

/-- The Munich address of end-to-end scenario A. -/
def munichAddress : Address := ⟨"Musterstraße", "5", 80333, "München", "DE"⟩

/-- The VerbynDich page description of end-to-end scenario A (identical to
the first fixture in `tests/test_verbyndich_parser.py`): 30€ monthly, DSL,
25 Mbit/s, 12-month minimum term, 250GB throttle, 12% discount until the
24th month capped at 107€, 29€ from the 25th month. -/
def scenarioDescription : String :=
  "Dieses einzigartige Angebot ist der perfekte Match für Sie. Für nur 30€ im Monat erhalten Sie eine DSL-Verbindung mit einer Geschwindigkeit von 25 Mbit/s. Zögern Sie nicht und schlagen Sie jetzt zu!\n\nBitte beachten Sie, dass die Mindestvertragslaufzeit 12 Monate beträgt. Ab 250GB pro Monat wird die Geschwindigkeit gedrosselt. Mit diesem Angebot erhalten Sie einen Rabatt von 12% auf Ihre monatliche Rechnung bis zum 24. Monat. Der maximale Rabatt beträgt 107€. Ab dem 24. Monat beträgt der monatliche Preis 29€."

/-- The raw page of scenario A. -/
def scenarioRawOffer : VDRawOffer :=
  { product := "VerbynDich Basic 25", description := scenarioDescription,
    last := false, valid := true }

/-- A parsed VerbynDich product with no discount fields and a
post-promotion price above the base cost (for the backfill claim). -/
def noDiscountVDProduct : VerbynDichProduct :=
  { monthly_cost_in_cent := 3000, connection_type := "DSL", speed := 25,
    contract_duration := 12, price_after_promotion := 3100 }

/-- A ByteMe product with no voucher and a post-promotion price above the
base cost (for the backfill claim). -/
def noVoucherBMProduct : ByteMeProduct :=
  { product_id := "bm1", provider_name := "ByteMe Basic", speed := 50,
    monthly_cost_in_cent := 3000, after_two_years_monthly_cost := 3100,
    duration_in_months := 24, connection_type := "DSL",
    installation_service := false, tv := "", limit_from := 0, max_age := 0,
    voucher_type := "", voucher_value := 0 }

/-- A placeholder normalized offer, used to instantiate the
normalization parameter of adapter models at points where the error path
under test never reaches normalization. -/
def placeholderOffer : NormalizedOffer :=
  { provider := "ByteMe", offer_id := "p", name := "p", speed := 0,
    connection_type := .DSL, price_details := { monthly_cost := 0 },
    contract_duration := 0, installation_service := none }

/- ### Theorems -/

/-- C9: `map_connection_type` is total (never raises) and idempotent; it
maps the provider vocabulary DSL/CABLE/FIBER/MOBILE to the canonical
DSL/Cable/Fiber/Mobile, returns already-canonical values unchanged, and
passes every unknown input through unchanged. -/
theorem connection_mapper_idempotent_passthrough (s : String) :
    map_connection_type (map_connection_type s) = map_connection_type s ∧
    map_connection_type "DSL" = "DSL" ∧
    map_connection_type "CABLE" = "Cable" ∧
    map_connection_type "FIBER" = "Fiber" ∧
    map_connection_type "MOBILE" = "Mobile" ∧
    map_connection_type "Cable" = "Cable" ∧
    map_connection_type "Fiber" = "Fiber" ∧
    map_connection_type "Mobile" = "Mobile" ∧
    (s ∉ (["DSL", "CABLE", "FIBER", "MOBILE"] : List String) →
      map_connection_type s = s) := by
  refine ⟨?_, by decide, by decide, by decide, by decide, by decide, by decide, by decide, ?_⟩
  · by_cases h1 : s = "DSL"
    · subst h1; decide
    by_cases h2 : s = "CABLE"
    · subst h2; decide
    by_cases h3 : s = "FIBER"
    · subst h3; decide
    by_cases h4 : s = "MOBILE"
    · subst h4; decide
    · simp [map_connection_type, h1, h2, h3, h4]
  · intro hs
    simp only [List.mem_cons, List.not_mem_nil, or_false, not_or] at hs
    obtain ⟨h1, h2, h3, h4⟩ := hs
    simp [map_connection_type, h1, h2, h3, h4]

/-- Witness for C9 at the unknown input `"LTE"`. -/
theorem connection_mapper_idempotent_passthrough_witness :
    map_connection_type (map_connection_type "LTE") = map_connection_type "LTE" ∧
    map_connection_type "DSL" = "DSL" ∧
    map_connection_type "CABLE" = "Cable" ∧
    map_connection_type "FIBER" = "Fiber" ∧
    map_connection_type "MOBILE" = "Mobile" ∧
    map_connection_type "Cable" = "Cable" ∧
    map_connection_type "Fiber" = "Fiber" ∧
    map_connection_type "Mobile" = "Mobile" ∧
    ("LTE" ∉ (["DSL", "CABLE", "FIBER", "MOBILE"] : List String) →
      map_connection_type "LTE" = "LTE") :=
  connection_mapper_idempotent_passthrough "LTE"

/-- C10: with a `0`/`None` voucher percentage and a `0`/`None` absolute
discount, `calculate_discount` returns the all-`None` `DiscountResult`
(zero vouchers behave exactly like no voucher); and with both a nonzero
percentage and a nonzero absolute discount, only the percentage path is
applied — the absolute discount is ignored. -/
theorem calculate_discount_zero_and_priority (L B : ℤ) :
    (∀ (pct disc cap : Option ℤ), (pct = none ∨ pct = some 0) →
      (disc = none ∨ disc = some 0) →
      calculate_discount L B pct cap disc = ⟨none, none, none, none⟩) ∧
    (∀ (p d : ℤ) (cap : Option ℤ), p ≠ 0 → d ≠ 0 →
      calculate_discount L B (some p) cap (some d) =
        calculate_percentage_discount L B p cap ∧
      calculate_discount L B (some p) cap (some d) =
        calculate_discount L B (some p) cap none) := by
  constructor
  · rintro pct disc cap (rfl | rfl) (rfl | rfl) <;>
      simp [calculate_discount, truthyInt]
  · intro p d cap hp hd
    constructor <;> simp [calculate_discount, truthyInt, hp]

/-- Witness for C10 at `B = 100`, `L = 24`, percentage 10, absolute 500. -/
theorem calculate_discount_zero_and_priority_witness :
    calculate_discount 24 100 none none (some 0) = ⟨none, none, none, none⟩ ∧
    calculate_discount 24 100 (some 10) none (some 500) =
      calculate_percentage_discount 24 100 10 none :=
  ⟨(calculate_discount_zero_and_priority 24 100).1 none (some 0) none (Or.inl rfl)
      (Or.inr rfl),
   ((calculate_discount_zero_and_priority 24 100).2 10 500 none (by decide) (by decide)).1⟩

set_option maxRecDepth 100000 in
/-- C2 counterexample: at base 100, percentage 29, no cap, length 24, the
code's binary64 preliminary discount `int(100 * (29 / 100))` is 28, while
the claimed exact-integer value `floor(100 * 29 / 100)` is 29; the stored
`monthlyDiscount` (28) and `discountedMonthlyCost` (72) therefore differ
from the claimed 29 and 71. -/
theorem percentage_discount_float_cx :
    (calculate_percentage_discount 24 100 29 none).monthly_discount = some 28 ∧
    (calculate_percentage_discount 24 100 29 none).monthly_cost_with_discount = some 72 ∧
    Int.fdiv (min (Int.fdiv ((100 : ℤ) * 29) 100 * 24) (capOf none)) 24 = 29 ∧
    ((28 : ℤ) ≠ 29) := by
  exact ⟨by decide, by decide, by decide, by decide⟩

/-- C2 (amended): for `B, L > 0`, the percentage path computes the
preliminary monthly discount as the binary64 value `int(B * (P / 100))`
(not the exact `floor(B * P / 100)`); from there, in exact integer
arithmetic, the total is `min(m * L, cap)` where a missing or zero cap
defaults to `10^10`, `monthlyDiscount = total // L`,
`discountedMonthlyCost = B - monthlyDiscount`, `totalSavings = total` which
is at most any supplied nonzero cap, and `discountPercentage` is the
binary64 `floor((monthlyDiscount / B) * 100)`. -/
theorem percentage_discount_fields (L B P : ℤ) (C? : Option ℤ)
    (hL : 0 < L) (hB : 0 < B) :
    calculate_percentage_discount L B P C? =
      { monthly_discount := some (Int.fdiv (min (pyPctMonthlyTemp B P * L) (capOf C?)) L)
        monthly_cost_with_discount :=
          some (B - Int.fdiv (min (pyPctMonthlyTemp B P * L) (capOf C?)) L)
        total_savings := some (min (pyPctMonthlyTemp B P * L) (capOf C?))
        discount_percentage := some (pyDiscountPct
          (Int.fdiv (min (pyPctMonthlyTemp B P * L) (capOf C?)) L) B) } ∧
    (∀ c : ℤ, C? = some c → c ≠ 0 →
      min (pyPctMonthlyTemp B P * L) (capOf C?) ≤ c) := by
  refine ⟨rfl, ?_⟩
  rintro c rfl hc
  have hcap : capOf (some c) = c := by simp [capOf, hc]
  rw [hcap]
  exact min_le_right _ _

set_option maxRecDepth 100000 in
/-- Witness for C2 (amended) at `L = 24`, `B = 3000`, `P = 12`,
cap 10700: the capped total is 8640 ≤ 10700. -/
theorem percentage_discount_fields_witness :
    (0 : ℤ) < 24 ∧ (0 : ℤ) < 3000 ∧
    (calculate_percentage_discount 24 3000 12 (some 10700)).total_savings =
      some (min (pyPctMonthlyTemp 3000 12 * 24) (capOf (some 10700))) ∧
    min (pyPctMonthlyTemp 3000 12 * 24) (capOf (some 10700)) ≤ 10700 ∧
    min (pyPctMonthlyTemp 3000 12 * 24) (capOf (some 10700)) = 8640 :=
  ⟨by decide, by decide,
   congrArg DiscountResult.total_savings
     (percentage_discount_fields 24 3000 12 (some 10700) (by decide) (by decide)).1,
   (percentage_discount_fields 24 3000 12 (some 10700) (by decide) (by decide)).2
     10700 rfl (by decide),
   by decide⟩

/-- C3 counterexample: a VerbynDich product with no discount fields and a
post-promotion price (3100) strictly greater than the base cost (3000):
the normalizer leaves all savings and discount-percentage fields `None` —
no backfill from the post-promotion price happens. -/
theorem no_backfill_cx :
    noDiscountVDProduct.discount_percentage = none ∧
    noDiscountVDProduct.absolute_discount_in_cent = none ∧
    (vd_get_price_details noDiscountVDProduct).monthly_cost = 3000 ∧
    (vd_get_price_details noDiscountVDProduct).monthly_cost_after_promotion = some 3100 ∧
    (3000 : ℤ) < 3100 ∧
    (vd_get_price_details noDiscountVDProduct).total_savings = none ∧
    (vd_get_price_details noDiscountVDProduct).discount_percentage = none ∧
    (vd_get_price_details noDiscountVDProduct).monthly_savings = none := by
  exact ⟨rfl, rfl, rfl, rfl, by decide, rfl, rfl, rfl⟩

/-- C3 (amended): when a provider supplies no discount fields, the
normalizers perform no backfill at all: every derived discount field of
`PriceDetails` stays `None` even when a strictly greater post-promotion
price is present, and the post-promotion price is passed through
unchanged (VerbynDich `_get_price_details` and ByteMe
`_get_price_details`). -/
theorem price_details_no_backfill (raw : VerbynDichProduct) (b : ByteMeProduct)
    (h1 : raw.discount_percentage = none) (h2 : raw.absolute_discount_in_cent = none)
    (h3 : b.voucher_type ≠ "percentage") (h4 : b.voucher_type ≠ "absolute") :
    ((vd_get_price_details raw).total_savings = none ∧
     (vd_get_price_details raw).discount_percentage = none ∧
     (vd_get_price_details raw).monthly_savings = none ∧
     (vd_get_price_details raw).monthly_cost_with_discount = none ∧
     (vd_get_price_details raw).monthly_cost_after_promotion =
       some raw.price_after_promotion) ∧
    ((byteme_get_price_details b).total_savings = none ∧
     (byteme_get_price_details b).discount_percentage = none ∧
     (byteme_get_price_details b).monthly_savings = none ∧
     (byteme_get_price_details b).monthly_cost_with_discount = none ∧
     (byteme_get_price_details b).monthly_cost_after_promotion =
       some b.after_two_years_monthly_cost) := by
  constructor
  · simp [vd_get_price_details, calculate_discount, truthyInt, h1, h2]
  · simp [byteme_get_price_details, h3, h4]

/-- Witness for C3 (amended) at the concrete no-discount inputs. -/
theorem price_details_no_backfill_witness :
    noDiscountVDProduct.discount_percentage = none ∧
    noVoucherBMProduct.voucher_type ≠ "percentage" ∧
    (vd_get_price_details noDiscountVDProduct).total_savings = none ∧
    (byteme_get_price_details noVoucherBMProduct).total_savings = none :=
  ⟨rfl, by decide,
   (price_details_no_backfill noDiscountVDProduct noVoucherBMProduct rfl rfl
     (by decide) (by decide)).1.1,
   (price_details_no_backfill noDiscountVDProduct noVoucherBMProduct rfl rfl
     (by decide) (by decide)).2.1⟩

/-- Correctness of the fuel-driven floor-log2. -/
theorem natLog2F_bounds (fuel : ℕ) :
    ∀ n, 1 ≤ n → n ≤ fuel → 2 ^ natLog2F fuel n ≤ n ∧ n < 2 ^ (natLog2F fuel n + 1) := by
  induction fuel with
  | zero => intro n h1 h2; omega
  | succ f ih =>
    intro n h1 h2
    by_cases hn : n < 2
    · have : n = 1 := by omega
      subst this
      simp [natLog2F]
    · have h1' : 1 ≤ n / 2 := by omega
      have h2' : n / 2 ≤ f := by omega
      obtain ⟨lo, hi⟩ := ih (n / 2) h1' h2'
      have hrw : natLog2F (f + 1) n = natLog2F f (n / 2) + 1 := by
        simp [natLog2F, hn]
      rw [hrw]
      set l := natLog2F f (n / 2) with hl
      have e1 : 2 ^ (l + 1) = 2 * 2 ^ l := by ring
      have e2 : 2 ^ (l + 1 + 1) = 2 * 2 ^ (l + 1) := by ring
      omega

/-- `ilog2` bounds: `2^(ilog2 n) ≤ n < 2^(ilog2 n + 1)` for `n ≥ 1`. -/
theorem ilog2_bounds (n : ℕ) (h : 1 ≤ n) :
    2 ^ ilog2 n ≤ n ∧ n < 2 ^ (ilog2 n + 1) :=
  natLog2F_bounds n n h le_rfl

/-- For a quotient that is exactly an integer `n'`, `flE` returns its
binade `ilog2 n'`. -/
theorem flE_mul_self (n' B : ℕ) (hn : 1 ≤ n') (hB : 1 ≤ B) :
    flE (n' * B) B = (ilog2 n' : ℤ) := by
  obtain ⟨gn, gn'⟩ := ilog2_bounds n' hn
  obtain ⟨bB, bB'⟩ := ilog2_bounds B hB
  obtain ⟨aA, aA'⟩ := ilog2_bounds (n' * B) (Nat.one_le_iff_ne_zero.mpr (by positivity))
  set g := ilog2 n' with hg
  set lb := ilog2 B with hlb
  set la := ilog2 (n' * B) with hla
  have low : 2 ^ (g + lb) ≤ n' * B := by
    rw [pow_add]; exact Nat.mul_le_mul gn bB
  have high : n' * B < 2 ^ (g + lb + 2) := by
    have : 2 ^ (g + lb + 2) = 2 ^ (g + 1) * 2 ^ (lb + 1) := by ring
    rw [this]; exact Nat.mul_lt_mul'' gn' bB'
  have hla1 : g + lb ≤ la := by
    by_contra hcon
    push_neg at hcon
    have h1 : la + 1 ≤ g + lb := hcon
    have : n' * B < 2 ^ (g + lb) :=
      lt_of_lt_of_le aA' (Nat.pow_le_pow_right (by norm_num) h1)
    omega
  have hla2 : la ≤ g + lb + 1 := by
    by_contra hcon
    push_neg at hcon
    have h1 : g + lb + 2 ≤ la := hcon
    have : 2 ^ (g + lb + 2) ≤ n' * B :=
      le_trans (Nat.pow_le_pow_right (by norm_num) h1) aA
    omega
  unfold flE
  rw [← hla, ← hlb]
  rcases (by omega : la = g + lb ∨ la = g + lb + 1) with hcase | hcase
  · have hcond : (B : ℤ) * 2 ^ la ≤ ((n' * B : ℕ) : ℤ) * 2 ^ lb := by
      push_cast
      rw [hcase]
      have hgn : (2:ℤ) ^ g ≤ (n' : ℤ) := by exact_mod_cast gn
      have key : (2:ℤ) ^ g * ((B:ℤ) * 2 ^ lb) ≤ (n':ℤ) * ((B:ℤ) * 2 ^ lb) :=
        mul_le_mul_of_nonneg_right hgn (by positivity)
      calc (B : ℤ) * 2 ^ (g + lb) = 2 ^ g * ((B : ℤ) * 2 ^ lb) := by ring
        _ ≤ (n' : ℤ) * ((B : ℤ) * 2 ^ lb) := key
        _ = (n' : ℤ) * (B : ℤ) * 2 ^ lb := by ring
    rw [if_pos hcond, hcase]
    push_cast
    ring
  · have hcond : ¬ ((B : ℤ) * 2 ^ la ≤ ((n' * B : ℕ) : ℤ) * 2 ^ lb) := by
      push_cast
      rw [hcase]
      have h2 : (n' : ℤ) < 2 ^ (g + 1) := by exact_mod_cast gn'
      have hBpos : (0:ℤ) < (B:ℤ) := by exact_mod_cast hB
      have key : (n':ℤ) * ((B:ℤ) * 2 ^ lb) < 2 ^ (g + 1) * ((B:ℤ) * 2 ^ lb) :=
        mul_lt_mul_of_pos_right h2 (by positivity)
      have : ((n' : ℤ) * B) * 2 ^ lb < (B : ℤ) * 2 ^ (g + lb + 1) := by
        calc ((n' : ℤ) * B) * 2 ^ lb = (n':ℤ) * ((B:ℤ) * 2 ^ lb) := by ring
          _ < 2 ^ (g + 1) * ((B:ℤ) * 2 ^ lb) := key
          _ = (B : ℤ) * 2 ^ (g + lb + 1) := by ring
      omega
    rw [if_neg hcond, hcase]
    push_cast
    ring

/-- Exact rounding: `rneFrac (k * B) B = k` for `B > 0`. -/
theorem rneFrac_exact (k B : ℤ) (hB : 0 < B) : rneFrac (k * B) B = k := by
  unfold rneFrac
  rw [Int.mul_fdiv_cancel k (ne_of_gt hB)]
  simp only [sub_self]
  rw [if_pos (by omega : 2 * (0:ℤ) < B)]

/-- Exactly representable quotients round to themselves: for `n' < 2^53`,
`flRatPos (n' * B) B` is a float of value exactly `n'`, and truncation
recovers `n'`. -/
theorem flRatPos_mul_exact (n' B : ℕ) (hn : 1 ≤ n') (hB : 1 ≤ B) (h53 : n' < 2 ^ 53) :
    pyTrunc (flRatPos (n' * B) B) = (n' : ℤ) := by
  have hE := flE_mul_self n' B hn hB
  have hgle : ilog2 n' ≤ 52 := by
    have h1 := (ilog2_bounds n' hn).1
    by_contra hcon
    push_neg at hcon
    have : (2:ℕ) ^ 53 ≤ 2 ^ ilog2 n' := Nat.pow_le_pow_right (by norm_num) hcon
    omega
  have hBpos : (0:ℤ) < (B:ℤ) := by exact_mod_cast hB
  unfold flRatPos
  rw [hE]
  set g := ilog2 n' with hg
  by_cases h52 : 52 ≤ (g : ℤ)
  · have hg52 : (g : ℤ) = 52 := le_antisymm (by exact_mod_cast hgle) h52
    rw [if_pos h52, hg52]
    simp only [sub_self, Int.toNat_zero, pow_zero, mul_one]
    have : ((n' * B : ℕ) : ℤ) = (n' : ℤ) * (B : ℤ) := by push_cast; ring
    rw [this, rneFrac_exact _ _ hBpos]
    simp [pyTrunc]
  · rw [if_neg h52]
    have hknat : (52 - (g:ℤ)).toNat = 52 - g := by omega
    have hrw : ((n' * B : ℕ) : ℤ) * 2 ^ (52 - (g:ℤ)).toNat =
        ((n' : ℤ) * 2 ^ (52 - g)) * (B : ℤ) := by
      rw [hknat]; push_cast; ring
    rw [hrw, rneFrac_exact _ _ hBpos]
    simp only [pyTrunc]
    rw [if_neg (by omega : ¬ (0:ℤ) ≤ (g:ℤ) - 52)]
    have hknat2 : (-((g:ℤ) - 52)).toNat = 52 - g := by omega
    rw [hknat2]
    exact Int.mul_tdiv_cancel _ (by positivity)

/-- `int(D / L)` in binary64 agrees with exact division whenever `L`
divides `D` with quotient `n < 2^53`. -/
theorem pyTrunc_flRat_exact (n L : ℤ) (hL : 0 < L) (hn : 0 < n) (h53 : n < 2 ^ 53) :
    pyTrunc (flRat (n * L) L) = n := by
  have hpos : 0 < n * L := mul_pos hn hL
  unfold flRat
  rw [if_neg (by omega), if_pos hpos, Int.natAbs_mul]
  have h1 : 1 ≤ n.natAbs := by omega
  have h2 : 1 ≤ L.natAbs := by omega
  have h3 : n.natAbs < 2 ^ 53 := by
    have : (2:ℤ) ^ 53 = ((2 ^ 53 : ℕ) : ℤ) := by norm_cast
    omega
  rw [flRatPos_mul_exact n.natAbs L.natAbs h1 h2 h3]
  omega

set_option maxRecDepth 1000000 in
/-- C6 counterexample: with `D = 24·2^52 − 1` and `L = 24` the code's
binary64 `int(D / L)` is `2^52`, while the claimed exact `D // L` is
`2^52 − 1`. -/
theorem absolute_discount_float_cx :
    (calculate_absolute_discount 24 5000 (24 * 2 ^ 52 - 1)).monthly_discount =
      some (2 ^ 52) ∧
    Int.fdiv ((24 : ℤ) * 2 ^ 52 - 1) 24 = 2 ^ 52 - 1 ∧
    ((2 ^ 52 : ℤ) ≠ 2 ^ 52 - 1) := by
  exact ⟨by decide, by decide, by decide⟩

/-- C6 (amended): for `B, D, L > 0` the absolute path yields
`monthlyDiscount = int(D / L)` evaluated in binary64 (which agrees with the
exact `D // L` whenever `L` divides `D` with quotient below `2^53`, but can
differ otherwise), `discountedMonthlyCost = B - monthlyDiscount`, and
`totalSavings = D`. -/
theorem absolute_discount_fields (L B D : ℤ) (hL : 0 < L) (hB : 0 < B) (hD : 0 < D) :
    calculate_absolute_discount L B D =
      { monthly_discount := some (pyTrunc (flRat D L))
        monthly_cost_with_discount := some (B - pyTrunc (flRat D L))
        total_savings := some D
        discount_percentage := some (pyDiscountPct (pyTrunc (flRat D L)) B) } ∧
    (∀ n : ℤ, 0 < n → n < 2 ^ 53 → D = n * L →
      pyTrunc (flRat D L) = Int.fdiv D L) := by
  refine ⟨rfl, ?_⟩
  rintro n hn h53 rfl
  rw [pyTrunc_flRat_exact n L hL hn h53, Int.mul_fdiv_cancel n (ne_of_gt hL)]

set_option maxRecDepth 100000 in
/-- Witness for C6 (amended) at `L = 24`, `B = 5000`, `D = 2400 = 100·24`:
the monthly discount is exactly `2400 // 24 = 100`. -/
theorem absolute_discount_fields_witness :
    (0:ℤ) < 24 ∧ (0:ℤ) < 5000 ∧ (0:ℤ) < 2400 ∧
    (calculate_absolute_discount 24 5000 2400).total_savings = some 2400 ∧
    pyTrunc (flRat 2400 24) = Int.fdiv 2400 24 ∧ Int.fdiv (2400:ℤ) 24 = 100 :=
  ⟨by decide, by decide, by decide,
   congrArg DiscountResult.total_savings
     (absolute_discount_fields 24 5000 2400 (by decide) (by decide) (by decide)).1,
   (absolute_discount_fields 24 5000 2400 (by decide) (by decide) (by decide)).2
     100 (by decide) (by decide) (by decide),
   by decide⟩

set_option maxRecDepth 1000000 in
/-- C7 (scenario A): the Munich address is a valid query, and normalizing
the valid page whose description quotes 30€/month, a DSL connection,
25 Mbit/s, a 12-month minimum term, a 12% discount until the 24th month
capped at 107€, and a 29€ post-promotion price yields a normalized offer
with `speed = 25`, canonical connection type DSL,
`priceDetails.monthlyCost = 3000` cents and `contractDuration = 12`. -/
theorem verbynDich_scenarioA :
    address_zip_valid munichAddress.zip = true ∧
    (vd_normalize_offer scenarioRawOffer).map
      (fun o => (o.speed, o.connection_type, o.price_details.monthly_cost,
        o.contract_duration)) = some (25, ConnectionTypeEnum.DSL, 3000, 12) := by
  exact ⟨by decide, by decide⟩

/-- C8: in the two-phase adapter a 429 on a detail fetch is retried (a stub
that 429s once and then succeeds returns the success at attempt 2); any
other non-200 detail status yields the empty result for that product in a
single attempt, without retry; consequently with phase 1 returning
`["p1","p2"]` and the detail fetch for `"p2"` failing with HTTP 500, the
final list is exactly the one offer normalized from `"p1"`'s product. -/
theorem servusSpeed_retry_and_scenarioC (normalize : ℕ → NormalizedOffer) (j : ℕ) :
    (tenacityRun 3 fun k => ssDetailBody (fun x : ℕ => some x)
      (if k = 1 then Upstream.status 429 else Upstream.ok j)) =
      (Except.ok (some j), 2) ∧
    (∀ c : ℕ, c ≠ 429 →
      (tenacityRun 3 fun _ => ssDetailBody (fun x : ℕ => some x) (Upstream.status c)) =
        (Except.ok none, 1)) ∧
    servusSpeed_get_offers (fun x : ℕ => some x) normalize
      (fun _ => Upstream.ok ["p1", "p2"])
      (fun pid _ => if pid = "p1" then Upstream.ok j else Upstream.status 500) =
      Except.ok [normalize j] := by
  refine ⟨rfl, ?_, rfl⟩
  intro c hc
  simp [tenacityRun, tenacityGo, ssDetailBody, hc]

/-- Witness for C8 at `c = 500`, product payload `7`, constant
normalization. -/
theorem servusSpeed_retry_and_scenarioC_witness :
    (tenacityRun 3 fun _ => ssDetailBody (fun x : ℕ => some x) (Upstream.status 500)) =
      (Except.ok none, 1) ∧
    servusSpeed_get_offers (fun x : ℕ => some x) (fun _ => placeholderOffer)
      (fun _ => Upstream.ok ["p1", "p2"])
      (fun pid _ => if pid = "p1" then Upstream.ok 7 else Upstream.status 500) =
      Except.ok [placeholderOffer] :=
  ⟨(servusSpeed_retry_and_scenarioC (fun _ => placeholderOffer) 7).2.1 500 (by decide),
   (servusSpeed_retry_and_scenarioC (fun _ => placeholderOffer) 7).2.2⟩

/-- C5 counterexample: after `maxAttempts = 3` consecutive retryable (429)
failures, the wrapped sub-call raises `RetryError` — it does not degrade to
the empty-result sentinel. -/
theorem retry_exhaustion_raises_cx :
    (tenacityRun 3 fun _ => vdBody (Upstream.status 429)) =
      (Except.error RetryError.mk, 3) ∧
    (Except.error RetryError.mk : Except RetryError (Option NormalizedOffer)) ≠
      Except.ok none := by
  refine ⟨rfl, ?_⟩
  intro h
  exact Except.noConfusion h

/-- C5 (amended): for the paginated adapter's wrapped sub-call, exactly the
429 outcome produces the retryable `ClientResponseError` (for the CSV
adapter every raised failure status does); a stub failing `N−1` times with
429 then succeeding yields the success at attempt `N ≤ maxAttempts`;
transport errors and all other exceptions are never retried and convert to
the empty sentinel in one attempt; the backoff wait is exponential with
multiplier 1 clamped into `[2, 10]`; and after `maxAttempts` consecutive
retryable failures the sub-call raises `RetryError` — the surrounding
`gather(return_exceptions=True)` of the paginated adapter then absorbs it
into an empty contribution. -/
theorem retry_policy_fields (raw : VDRawOffer) (N : ℕ) (h1 : 1 ≤ N) (h3 : N ≤ 3) :
    (∀ u : Upstream VDRawOffer, vdBody u = .raiseRetryable ↔ u = .status 429) ∧
    (∀ (pc : String → Option (List ByteMeProduct)) (u : Upstream String),
      bmBody pc u = .raiseRetryable ↔ ∃ c, u = .status c) ∧
    (tenacityRun 3 fun k => vdBody (if k < N then .status 429 else .ok raw)) =
      (Except.ok (vd_normalize_offer raw), N) ∧
    (tenacityRun 3 fun _ => vdBody .transport) = (Except.ok none, 1) ∧
    (tenacityRun 3 fun _ => vdBody .exn) = (Except.ok none, 1) ∧
    (∀ n : ℕ, wait_exponential 1 2 10 n = max 2 (min (2 ^ n) 10) ∧
      wait_exponential 1 2 10 n ≤ 10) ∧
    (tenacityRun 3 fun _ => vdBody (.status 429)) = (Except.error .mk, 3) ∧
    verbynDich_get_offers (fun _ _ => .status 429) = [] := by
  refine ⟨?_, ?_, ?_, rfl, rfl, ?_, rfl, rfl⟩
  · intro u
    cases u with
    | ok raw' => simp [vdBody]
    | status c =>
      by_cases hc : c = 429
      · subst hc; simp [vdBody]
      · simp [vdBody, hc]
    | transport => simp [vdBody]
    | exn => simp [vdBody]
  · intro pc u
    cases u with
    | ok csv => cases hpc : pc csv <;> simp [bmBody, hpc]
    | status c => simp [bmBody]
    | transport => simp [bmBody]
    | exn => simp [bmBody]
  · interval_cases N <;> norm_num [tenacityRun, tenacityGo, vdBody]
  · intro n
    refine ⟨by simp [wait_exponential], ?_⟩
    exact max_le (by norm_num) (min_le_right _ _)

/-- Witness for C5 (amended) at `N = 2` and the scenario-A page. -/
theorem retry_policy_fields_witness :
    (1 : ℕ) ≤ 2 ∧ (2 : ℕ) ≤ 3 ∧
    vdBody (Upstream.status 429) = BodyResult.raiseRetryable ∧
    (tenacityRun 3 fun _ => vdBody (Upstream.transport)) = (Except.ok none, 1) :=
  ⟨by decide, by decide,
   ((retry_policy_fields scenarioRawOffer 2 (by decide) (by decide)).1
     (Upstream.status 429)).mpr rfl,
   (retry_policy_fields scenarioRawOffer 2 (by decide) (by decide)).2.2.2.1⟩

/-- C1 counterexample: `ByteMe.get_offers` against an upstream that answers
HTTP 500 on every request exhausts its 10 retry attempts and raises
`RetryError` to its caller instead of returning a (possibly empty) offer
list. -/
theorem byteme_always_error_raises_cx :
    byteMe_get_offers (fun _ => some []) (fun _ => placeholderOffer)
      (fun _ => Upstream.status 500) = Except.error RetryError.mk := rfl

/-- C1 (amended): failure absorption is per-adapter, not universal:
VerbynDich's `get_offers` returns a list for every uniformly-erroring
upstream (failure statuses, rate limiting, transport); ByteMe and WebWunder
absorb transport-level failures into empty results but propagate
`RetryError` when every request fails with an HTTP failure status; and
ServusSpeed absorbs detail-phase failures but propagates `RetryError` when
its phase-1 product listing persistently fails with an HTTP status. -/
theorem adapters_error_absorption :
    verbynDich_get_offers (fun _ _ => .status 500) = [] ∧
    verbynDich_get_offers (fun _ _ => .status 429) = [] ∧
    verbynDich_get_offers (fun _ _ => .transport) = [] ∧
    (∀ (pc : String → Option (List ByteMeProduct)) (nm : ByteMeProduct → NormalizedOffer),
      byteMe_get_offers pc nm (fun _ => .transport) = .ok [] ∧
      byteMe_get_offers pc nm (fun _ => .status 500) = .error .mk) ∧
    (∀ (px : String → List ℕ) (nm : ℕ → Bool → NormalizedOffer),
      webwunder_get_offers px nm (fun _ _ _ => .transport) = .ok [] ∧
      webwunder_get_offers px nm (fun _ _ _ => .status 500) = .error .mk) ∧
    (∀ (pj : ℕ → Option ℕ) (nm : ℕ → NormalizedOffer),
      servusSpeed_get_offers pj nm (fun _ => .transport) (fun _ _ => .transport) = .ok [] ∧
      servusSpeed_get_offers pj nm (fun _ => .ok ["p1"]) (fun _ _ => .status 500) = .ok [] ∧
      servusSpeed_get_offers pj nm (fun _ => .status 429) (fun _ _ => .ok 0) =
        .error .mk) := by
  exact ⟨rfl, rfl, rfl, fun pc nm => ⟨rfl, rfl⟩, fun px nm => ⟨rfl, rfl⟩,
    fun pj nm => ⟨rfl, rfl, rfl⟩⟩

/-- C4: in `webwunder.py` `get_offers` the `Semaphore(5)` created at line
75 is never acquired — the 8 Cartesian tasks call `_fetch_products`
directly (line 86), bypassing `_fetch_offer_with_rate_limit` — so a
schedule in which all 8 upstream requests are simultaneously in flight is
reachable, exceeding the claimed hard ceiling of 5. -/
theorem webwunder_semaphore_not_enforced :
    Relation.ReflTransGen (SemStep false) wwInitState ⟨0, 8, 0, 5⟩ ∧ 5 < 8 := by
  constructor
  · have step : ∀ p i : ℕ, SemStep false ⟨p + 1, i, 0, 5⟩ ⟨p, i + 1, 0, 5⟩ := by
      intro p i
      have h := @SemStep.start false p i 0 5 (by simp)
      simpa using h
    exact .head (step 7 0) (.head (step 6 1) (.head (step 5 2) (.head (step 4 3)
      (.head (step 3 4) (.head (step 2 5) (.head (step 1 6)
      (.head (step 0 7) .refl)))))))
  · norm_num

/-- In the semaphore-guarded task shape used by `verbynDich.py` and
`servusSpeed.py` (`async with semaphore:` around the request), the number
of in-flight requests never exceeds the semaphore size, under any
schedule. -/
theorem semaphore_guarded_bound (L n : ℕ) (s : SemState)
    (h : Relation.ReflTransGen (SemStep true) ⟨n, 0, 0, L⟩ s) : s.inflight ≤ L := by
  have key : ∀ t : SemState, Relation.ReflTransGen (SemStep true) ⟨n, 0, 0, L⟩ t →
      t.inflight + t.avail = L := by
    intro t ht
    induction ht with
    | refl => simp
    | tail hr hstep ih =>
      cases hstep with
      | start p i d a hpos =>
        have ha : 0 < a := hpos rfl
        simp only [] at ih ⊢
        simp at ih ⊢
        omega
      | finish p i d a =>
        simp at ih ⊢
        omega
  have := key s h
  omega
